import Mathlib

/-!
Shallow embedding of the Salesforce Apex monitoring agent
(run-cycle orchestration pipeline): the retry-with-backoff primitive
(src/utils/retry.js), the three monitors and their analysis functions
(debug-log-monitor.js, governor-limit-monitor.js, code-quality-monitor.js),
the anomaly detector (analyzers/anomaly-detector.js), and the orchestrator
run cycle (orchestrator.js, auth/salesforce-auth.js, storage/database.js).

Modelling conventions:
* JavaScript numbers that carry fractional percentages are modelled as
  rationals; integer counters as naturals.
* The string produced by JS toFixed(1) followed by parseFloat is modelled
  as the rational rounded to one decimal place (JS toFixed rounds half up
  for the non-negative values arising here).
* JS plain objects used as string-keyed maps are modelled as association
  lists preserving insertion order (JS string keys enumerate in insertion
  order).
* Asynchronous fallible calls become values of Except String.
* Wall-clock time is abstracted: the orchestrator environment carries one
  symbolic duration value standing for Date.now() differences.
-/

namespace ApexMon

/-- A jsforce connection handle. Its internals are never inspected by the
modelled code, so it is a token type. -/
inductive Connection where
  | mk
deriving DecidableEq, Repr

/-! ## Association-list helpers (JS object-as-map) -/

/-- Lookup in an insertion-ordered association list. -/
def alookup {β : Type} : List (String × β) → String → Option β
  | [], _ => none
  | (k, v) :: rest, key => if k = key then some v else alookup rest key

/-- Model of the JS idiom map[k] = (map[k] || 0) + 1 on a plain object:
increment an existing key in place, or append the key with count one. -/
def incr : List (String × Nat) → String → List (String × Nat)
  | [], key => [(key, 1)]
  | (k, v) :: rest, key =>
      if k = key then (k, v + 1) :: rest else (k, v) :: incr rest key

/-- Sum of the counts of a histogram. -/
def sumCounts (m : List (String × Nat)) : Nat :=
  (m.map (fun kv => kv.2)).sum

/-- The keys of an association list, in order. -/
def keysOf {β : Type} (m : List (String × β)) : List String :=
  m.map (fun kv => kv.1)

/-! ## Data model: error records and the debug-log summary
(src/monitors/debug-log-monitor.js) -/

/-- One error record as built by DebugLogMonitor.queryDebugLogs. -/
structure ErrorRecord where
  timestamp : String
  logId : String
  errorType : String
  errorMessage : String
  className : String
  methodName : String
  lineNumber : Option Int
deriving DecidableEq, Repr

/-- The summary object returned by DebugLogMonitor.analyzeErrors. -/
structure ErrorSummary where
  totalErrors : Nat
  uniqueErrorTypes : Nat
  errorTypes : List (String × Nat)
  classErrors : List (String × Nat)
  mostCommonError : String
deriving DecidableEq, Repr

/-- First key holding a maximal count: the head of the JS stable sort of
Object.keys by descending count (ties keep insertion order). -/
def mostCommonKey : List (String × Nat) → Option (String × Nat)
  | [] => none
  | (k, v) :: rest =>
      match mostCommonKey rest with
      | none => some (k, v)
      | some (k2, v2) => if v2 > v then some (k2, v2) else some (k, v)

/-- DebugLogMonitor.analyzeErrors: histogram by error type, histogram by
class (only for records whose className is truthy, i.e. nonempty), total
count, distinct-type count, and the most common error type. -/
def analyzeErrors (errors : List ErrorRecord) : ErrorSummary :=
  let errorTypes := errors.foldl (fun m e => incr m e.errorType) []
  let classErrors := errors.foldl
    (fun m e => if e.className ≠ "" then incr m e.className else m) []
  { totalErrors := errors.length
    uniqueErrorTypes := (keysOf errorTypes).length
    errorTypes := errorTypes
    classErrors := classErrors
    mostCommonError := ((mostCommonKey errorTypes).map (fun kv => kv.1)).getD "None" }

/-- The object returned by DebugLogMonitor.monitor on success. -/
structure DebugLogResults where
  errors : List ErrorRecord
  summary : ErrorSummary
deriving DecidableEq, Repr

/-! ## Data model: governor limits (src/monitors/governor-limit-monitor.js) -/

/-- One limit usage record as built by GovernorLimitMonitor.extractLimitData. -/
structure LimitUsageRecord where
  timestamp : String
  className : String
  methodName : String
  soqlQueriesUsed : Nat
  soqlQueriesLimit : Nat
  dmlStatementsUsed : Nat
  dmlStatementsLimit : Nat
  cpuTimeUsed : Nat
  cpuTimeLimit : Nat
  heapSizeUsed : Nat
  heapSizeLimit : Nat
deriving DecidableEq, Repr

/-- used / limit * 100 as a rational. -/
def pct (used limit : Nat) : ℚ := ((used : ℚ) / (limit : ℚ)) * 100

def soqlPercent (d : LimitUsageRecord) : ℚ := pct d.soqlQueriesUsed d.soqlQueriesLimit
def dmlPercent (d : LimitUsageRecord) : ℚ := pct d.dmlStatementsUsed d.dmlStatementsLimit
def cpuPercent (d : LimitUsageRecord) : ℚ := pct d.cpuTimeUsed d.cpuTimeLimit
def heapPercent (d : LimitUsageRecord) : ℚ := pct d.heapSizeUsed d.heapSizeLimit

/-- Math.max over the four per-resource percentages. -/
def maxPercentUsed (d : LimitUsageRecord) : ℚ :=
  max (soqlPercent d) (max (dmlPercent d) (max (cpuPercent d) (heapPercent d)))

/-- Model of x.toFixed(1) read back with parseFloat: round to one decimal
place, halves rounding up (Mathlib round is half-up, matching JS toFixed on
the non-negative values arising here). -/
def toFixed1 (x : ℚ) : ℚ := ((round (10 * x) : ℤ) : ℚ) / 10

/-- One entry of analysis.highUsage: the spread record plus the formatted
percentage fields. -/
structure HighUsageEntry where
  record : LimitUsageRecord
  soqlPct : ℚ
  dmlPct : ℚ
  cpuPct : ℚ
  heapPct : ℚ
  maxPercent : ℚ
deriving DecidableEq, Repr

/-- Builds the highUsage entry pushed by analyzeLimits for one record. -/
def mkHighUsage (d : LimitUsageRecord) : HighUsageEntry :=
  { record := d
    soqlPct := toFixed1 (soqlPercent d)
    dmlPct := toFixed1 (dmlPercent d)
    cpuPct := toFixed1 (cpuPercent d)
    heapPct := toFixed1 (heapPercent d)
    maxPercent := toFixed1 (maxPercentUsed d) }

/-- Per-class accumulator while the analyzeLimits loop runs: count and the
running sums that the source keeps in avgSoql / avgDml / avgCpu before the
final averaging pass. The source accumulates no heap sum. -/
structure ByClassAccum where
  count : Nat
  sumSoql : Nat
  sumDml : Nat
  sumCpu : Nat
deriving DecidableEq, Repr

/-- One step of the byClass aggregation for a record. -/
def addRec (e : ByClassAccum) (d : LimitUsageRecord) : ByClassAccum :=
  { count := e.count + 1
    sumSoql := e.sumSoql + d.soqlQueriesUsed
    sumDml := e.sumDml + d.dmlStatementsUsed
    sumCpu := e.sumCpu + d.cpuTimeUsed }

/-- Update of the byClass object for one record: the key starts at
zeros on first sight, then accumulate. -/
def stepByClass : List (String × ByClassAccum) → LimitUsageRecord → List (String × ByClassAccum)
  | [], d => [(d.className, addRec ⟨0, 0, 0, 0⟩ d)]
  | (k, e) :: rest, d =>
      if k = d.className then (k, addRec e d) :: rest
      else (k, e) :: stepByClass rest d

/-- One finalized byClass entry: the averages written back by the second
pass of analyzeLimits, each formatted with toFixed(1). No heap average. -/
structure ByClassEntry where
  count : Nat
  avgSoql : ℚ
  avgDml : ℚ
  avgCpu : ℚ
deriving DecidableEq, Repr

/-- The averaging pass of analyzeLimits on one accumulated entry. -/
def finalizeClass (e : ByClassAccum) : ByClassEntry :=
  { count := e.count
    avgSoql := toFixed1 ((e.sumSoql : ℚ) / (e.count : ℚ))
    avgDml := toFixed1 ((e.sumDml : ℚ) / (e.count : ℚ))
    avgCpu := toFixed1 ((e.sumCpu : ℚ) / (e.count : ℚ)) }

/-- The thresholds.governorLimits configuration section. The source only
ever reads the soqlQueries key (see analyzeLimits). -/
structure GovernorLimitThresholds where
  soqlQueries : ℚ
  dmlStatements : ℚ
  cpuTime : ℚ
  heapSize : ℚ
deriving DecidableEq, Repr

/-- The analysis object returned by GovernorLimitMonitor.analyzeLimits. -/
structure LimitAnalysis where
  highUsageCount : Nat
  highUsage : List HighUsageEntry
  byClass : List (String × ByClassEntry)
deriving DecidableEq, Repr

/-- GovernorLimitMonitor.analyzeLimits: one loop accumulating the
highUsage list (records whose unrounded maxPercent is at least the
soqlQueries threshold) and the per-class sums, then the averaging pass. -/
def analyzeLimits (thresholds : GovernorLimitThresholds)
    (limitData : List LimitUsageRecord) : LimitAnalysis :=
  let pass := limitData.foldl
    (fun acc d =>
      ((if thresholds.soqlQueries ≤ maxPercentUsed d
          then acc.1 ++ [mkHighUsage d] else acc.1),
       stepByClass acc.2 d))
    ([], [])
  { highUsageCount := pass.1.length
    highUsage := pass.1
    byClass := pass.2.map (fun ke => (ke.1, finalizeClass ke.2)) }

/-- The object returned by GovernorLimitMonitor.monitor on success. -/
structure LimitResults where
  limitData : List LimitUsageRecord
  analysis : LimitAnalysis
deriving DecidableEq, Repr

/-! ## Data model: code quality (src/monitors/code-quality-monitor.js) -/

/-- The metrics payload attached to a quality issue. -/
structure QualityMetrics where
  complexity : Nat
  lengthLines : Nat
  coverage : Option ℚ
deriving DecidableEq, Repr

/-- One per-class finding produced by CodeQualityMonitor.identifyIssues. -/
structure QualityIssue where
  className : String
  issues : List String
  metrics : QualityMetrics
deriving DecidableEq, Repr

/-- The object returned by CodeQualityMonitor.monitor on success. The
classes list is unused by the detector and is abstracted to its length. -/
structure QualityResults where
  classCount : Nat
  issues : List QualityIssue
deriving DecidableEq, Repr

/-- The SymbolTable value handed to calculateComplexity. Only the presence
and length of the methods array matter to the source (it never reads a
method field), so methods are tokens. The methods field itself may be
absent or null, modelled by Option; a present empty array is truthy in JS
and passes the guard. -/
structure SymbolTable where
  methods : Option (List Unit)
deriving DecidableEq, Repr

/-- Math.ceil(a / b) on naturals. -/
def ceilDiv (a b : Nat) : Nat := (a + b - 1) / b

/-- CodeQualityMonitor.calculateComplexity. The per-method
Math.floor(Math.random() * 20) draws are modelled by an oracle stream
rand : Nat -> Nat of the successive draws. -/
def calculateComplexity (rand : Nat → Nat) (symbolTable : Option SymbolTable) : Nat :=
  match symbolTable with
  | none => 0
  | some st =>
    match st.methods with
    | none => 0
    | some methods =>
      let methodCount := methods.length
      let totalComplexity := ((List.range methodCount).map rand).sum
      if methodCount > 0 then ceilDiv totalComplexity methodCount else 0

/-! ## Configuration (config.json as read by the source) -/

structure EnabledConfig where
  debugLogs : Bool
  governorLimits : Bool
  codeQuality : Bool
deriving DecidableEq, Repr

structure MonitoringConfig where
  enabled : EnabledConfig
deriving DecidableEq, Repr

structure ErrorRateThresholds where
  absoluteCount : Nat
deriving DecidableEq, Repr

structure CodeQualityThresholds where
  cyclomaticComplexity : Nat
  classLength : Nat
  minTestCoverage : ℚ
deriving DecidableEq, Repr

structure Thresholds where
  errorRate : ErrorRateThresholds
  governorLimits : GovernorLimitThresholds
  codeQuality : CodeQualityThresholds
deriving DecidableEq, Repr

structure Config where
  monitoring : MonitoringConfig
  thresholds : Thresholds
deriving DecidableEq, Repr

/-! ## AnomalyDetector (src/analyzers/anomaly-detector.js) -/

/-- The structured details payload of an anomaly, one shape per type. -/
inductive AnomalyDetails where
  | errorRate (errorCount : Nat) (threshold : Nat) (errorTypes : List (String × Nat))
  | multipleErrorTypes (errorTypes : List (String × Nat))
  | governorLimit (className methodName : String)
      (soqlPct dmlPct cpuPct heapPct maxPercent : ℚ)
  | codeQuality (className : String) (issues : List String) (metrics : QualityMetrics)
deriving DecidableEq, Repr

/-- A detected anomaly. Type and severity are the literal strings pushed by
the source. -/
structure Anomaly where
  type : String
  severity : String
  description : String
  details : AnomalyDetails
deriving DecidableEq, Repr

/-- AnomalyDetector.detectErrorAnomalies. -/
def detectErrorAnomalies (config : Config) (debugLogResults : DebugLogResults) : List Anomaly :=
  let thresholds := config.thresholds.errorRate
  let errors := debugLogResults.errors
  let summary := debugLogResults.summary
  (if thresholds.absoluteCount ≤ errors.length then
      [{ type := "HIGH_ERROR_RATE"
         severity := "HIGH"
         description := toString errors.length ++ " errors detected in the last monitoring period"
         details := .errorRate errors.length thresholds.absoluteCount summary.errorTypes }]
    else []) ++
  (if 5 < summary.uniqueErrorTypes then
      [{ type := "MULTIPLE_ERROR_TYPES"
         severity := "MEDIUM"
         description := toString summary.uniqueErrorTypes ++ " different error types detected"
         details := .multipleErrorTypes summary.errorTypes }]
    else [])

/-- AnomalyDetector.detectLimitAnomalies. Severity compares
parseFloat(usage.maxPercent), i.e. the toFixed(1)-rounded value stored in
the highUsage entry. -/
def detectLimitAnomalies (limitResults : LimitResults) : List Anomaly :=
  let analysis := limitResults.analysis
  if analysis.highUsageCount > 0 then
    analysis.highUsage.map (fun u =>
      { type := "HIGH_GOVERNOR_LIMIT_USAGE"
        severity :=
          if (90 : ℚ) ≤ u.maxPercent then "CRITICAL"
          else if (80 : ℚ) ≤ u.maxPercent then "HIGH"
          else "MEDIUM"
        description := u.record.className ++ " approaching governor limits (" ++
          toString u.maxPercent ++ "% usage)"
        details := .governorLimit u.record.className u.record.methodName
          u.soqlPct u.dmlPct u.cpuPct u.heapPct u.maxPercent })
  else []

/-- AnomalyDetector.detectQualityAnomalies. -/
def detectQualityAnomalies (qualityResults : QualityResults) : List Anomaly :=
  qualityResults.issues.map (fun issue =>
    { type := "CODE_QUALITY_ISSUE"
      severity := if 3 ≤ issue.issues.length then "MEDIUM" else "LOW"
      description := issue.className ++ " has " ++ toString issue.issues.length ++
        " quality issue(s)"
      details := .codeQuality issue.className issue.issues issue.metrics })

/-- The duck-typed monitoringResults object handed to detect: a field is
present exactly when the corresponding monitor ran. -/
structure MonitoringResults where
  debugLogs : Option DebugLogResults
  governorLimits : Option LimitResults
  codeQuality : Option QualityResults
deriving DecidableEq, Repr

/-- AnomalyDetector.detect: error anomalies, then limit anomalies, then
quality anomalies, each section gated on the presence (JS truthiness) of
its snapshot. -/
def detect (config : Config) (monitoringResults : MonitoringResults) : List Anomaly :=
  (match monitoringResults.debugLogs with
   | some d => detectErrorAnomalies config d
   | none => []) ++
  (match monitoringResults.governorLimits with
   | some g => detectLimitAnomalies g
   | none => []) ++
  (match monitoringResults.codeQuality with
   | some q => detectQualityAnomalies q
   | none => [])

/-! ## retry (src/utils/retry.js) -/

/-- The observable trace of one retry call: how many times fn was invoked,
the backoff sleeps performed between attempts, and the final outcome. The
error is Option E because the source dereferences lastError after the loop:
with maxRetries = 0 no attempt ran and lastError is undefined (none). -/
structure RetryTrace (E α : Type) where
  attemptsMade : Nat
  sleeps : List Nat
  result : Except (Option E) α
deriving Repr

/-- The for-loop of retry, structurally recursing on the number of
remaining attempts. fn k is the outcome of the k-th invocation
(attempts are 1-indexed as in the source). On failure of attempt
attempt < maxRetries the loop sleeps delay * 2 ^ (attempt - 1). -/
def retryLoop {E α : Type} (fn : Nat → Except E α) (delay : Nat) :
    (remaining attempt : Nat) → List Nat → Option E → RetryTrace E α
  | 0, attempt, sleeps, last => ⟨attempt - 1, sleeps, .error last⟩
  | remaining + 1, attempt, sleeps, _ =>
      match fn attempt with
      | .ok v => ⟨attempt, sleeps, .ok v⟩
      | .error e =>
          if remaining = 0 then
            retryLoop fn delay remaining (attempt + 1) sleeps (some e)
          else
            retryLoop fn delay remaining (attempt + 1)
              (sleeps ++ [delay * 2 ^ (attempt - 1)]) (some e)

/-- retry(fn, maxRetries = 3, delay = 1000). -/
def retry {E α : Type} (fn : Nat → Except E α) (maxRetries : Nat := 3)
    (delay : Nat := 1000) : RetryTrace E α :=
  retryLoop fn delay maxRetries 1 [] none

/-! ## SalesforceAuth.getConnection (src/auth/salesforce-auth.js) -/

/-- The message of the error thrown by getConnection before a successful
authenticate. -/
def notAuthenticatedMessage : String := "Not authenticated. Call authenticate() first."

/-- SalesforceAuth.getConnection: this.conn is null until authenticate
succeeds; getConnection throws in that case. -/
def getConnection (conn : Option Connection) : Except String Connection :=
  match conn with
  | none => .error notAuthenticatedMessage
  | some c => .ok c

/-! ## MonitoringOrchestrator.run (src/orchestrator.js)

The collaborators of the orchestrator (database, auth singleton, the three
monitors) are modelled as an environment of fallible operations: each
Except String value is the observable outcome of the corresponding call in
one execution. The observable side effects on the store (and the monitor
invocations) are recorded as an ordered event trace. Notifier.notify wraps
its whole body in try/catch and never propagates a failure, so it
contributes nothing to the trace and cannot fail the run. -/

/-- One observable event of a run. -/
inductive RunEvent where
  | startRun (id : Nat)
  | monitorCalled (name : String)
  | insertDebugLogErrors (runId : Nat) (errors : List ErrorRecord)
  | insertGovernorLimits (runId : Nat) (limits : List LimitUsageRecord)
  | insertAnomalies (runId : Nat) (anomalies : List Anomaly)
  | endRun (runId : Nat) (status : String) (durationMs : Nat)
deriving DecidableEq, Repr

/-- Whether an event is an anomaly-persistence write. -/
def RunEvent.isInsertAnomalies : RunEvent → Bool
  | .insertAnomalies _ _ => true
  | _ => false

/-- The collaborators and configuration of one orchestrator execution. -/
structure OrchestratorEnv where
  config : Config
  /-- Outcome of this.db.startRun(). -/
  startRun : Except String Nat
  /-- The auth singleton state: this.conn of SalesforceAuth. -/
  authState : Option Connection
  /-- Outcome of DebugLogMonitor.monitor (a thrown error propagates out of
  the monitor past its query-level catch). -/
  debugLogMonitor : Connection → Except String DebugLogResults
  /-- Outcome of GovernorLimitMonitor.monitor. -/
  governorLimitMonitor : Connection → Except String LimitResults
  /-- Outcome of CodeQualityMonitor.monitor. -/
  codeQualityMonitor : Connection → Except String QualityResults
  /-- Outcome of this.db.insertDebugLogErrors. -/
  insertDebugLogErrors : Nat → List ErrorRecord → Except String Unit
  /-- Outcome of this.db.insertGovernorLimits. -/
  insertGovernorLimits : Nat → List LimitUsageRecord → Except String Unit
  /-- Outcome of this.db.insertAnomalies. -/
  insertAnomalies : Nat → List Anomaly → Except String Unit
  /-- Outcome of this.db.endRun. -/
  endRun : Nat → String → Nat → Except String Unit
  /-- Abstract wall-clock duration Date.now() - startTime. -/
  duration : Nat

/-- What run() hands back to its caller. completed and failed are the two
shapes of the returned result object ({success: true, ...} resp.
{success: false, error}); threw models an exception escaping run() itself
(possible only from the endRun call inside the catch block). -/
inductive RunOutcome where
  | completed (runId : Nat) (durationMs : Nat) (anomalies : List Anomaly)
      (results : MonitoringResults)
  | failed (errorMsg : String)
  | threw (errorMsg : String)
deriving DecidableEq, Repr

def RunOutcome.isCompleted : RunOutcome → Bool
  | .completed _ _ _ _ => true
  | _ => false

def RunOutcome.isThrew : RunOutcome → Bool
  | .threw _ => true
  | _ => false

/-- The debug-log block of run(): gated on config, monitor call, then the
insert when the errors list is nonempty. Returns the snapshot stored into
results along with the extended trace, or the propagating error. -/
def runDebugLogStep (env : OrchestratorEnv) (runId : Nat) (conn : Connection)
    (ev : List RunEvent) : Except String (Option DebugLogResults) × List RunEvent :=
  if env.config.monitoring.enabled.debugLogs then
    let ev := ev ++ [RunEvent.monitorCalled "debugLogs"]
    match env.debugLogMonitor conn with
    | .error m => (.error m, ev)
    | .ok snap =>
        if snap.errors.length > 0 then
          match env.insertDebugLogErrors runId snap.errors with
          | .error m => (.error m, ev)
          | .ok _ => (.ok (some snap), ev ++ [RunEvent.insertDebugLogErrors runId snap.errors])
        else (.ok (some snap), ev)
  else (.ok none, ev)

/-- The governor-limit block of run(): insert is gated on nonempty
limitData. -/
def runGovernorStep (env : OrchestratorEnv) (runId : Nat) (conn : Connection)
    (ev : List RunEvent) : Except String (Option LimitResults) × List RunEvent :=
  if env.config.monitoring.enabled.governorLimits then
    let ev := ev ++ [RunEvent.monitorCalled "governorLimits"]
    match env.governorLimitMonitor conn with
    | .error m => (.error m, ev)
    | .ok snap =>
        if snap.limitData.length > 0 then
          match env.insertGovernorLimits runId snap.limitData with
          | .error m => (.error m, ev)
          | .ok _ => (.ok (some snap), ev ++ [RunEvent.insertGovernorLimits runId snap.limitData])
        else (.ok (some snap), ev)
  else (.ok none, ev)

/-- The code-quality block of run(): no persistence step in the source. -/
def runQualityStep (env : OrchestratorEnv) (_runId : Nat) (conn : Connection)
    (ev : List RunEvent) : Except String (Option QualityResults) × List RunEvent :=
  if env.config.monitoring.enabled.codeQuality then
    let ev := ev ++ [RunEvent.monitorCalled "codeQuality"]
    match env.codeQualityMonitor conn with
    | .error m => (.error m, ev)
    | .ok snap => (.ok (some snap), ev)
  else (.ok none, ev)

/-- The body of the try block of run() after startRun: connection, the
three monitor blocks, anomaly detection and persistence, notification
(absorbed), and the completed endRun. On success returns the anomaly list
and results object used to build the success result. -/
def runInner (env : OrchestratorEnv) (runId : Nat) :
    Except String (List Anomaly × MonitoringResults) × List RunEvent :=
  match getConnection env.authState with
  | .error m => (.error m, [])
  | .ok conn =>
    match runDebugLogStep env runId conn [] with
    | (.error m, ev) => (.error m, ev)
    | (.ok debugLogs, ev) =>
      match runGovernorStep env runId conn ev with
      | (.error m, ev2) => (.error m, ev2)
      | (.ok governorLimits, ev2) =>
        match runQualityStep env runId conn ev2 with
        | (.error m, ev3) => (.error m, ev3)
        | (.ok codeQuality, ev3) =>
          let results : MonitoringResults := ⟨debugLogs, governorLimits, codeQuality⟩
          let anomalies := detect env.config results
          match (if anomalies.length > 0 then env.insertAnomalies runId anomalies
                 else .ok ()) with
          | .error m => (.error m, ev3)
          | .ok _ =>
            let ev4 := if anomalies.length > 0
              then ev3 ++ [RunEvent.insertAnomalies runId anomalies] else ev3
            match env.endRun runId "completed" env.duration with
            | .error m => (.error m, ev4)
            | .ok _ => (.ok (anomalies, results),
                ev4 ++ [RunEvent.endRun runId "completed" env.duration])

/-- MonitoringOrchestrator.run. The catch block runs endRun(runId,
"failed") only under JS truthiness of runId (skipped when startRun itself
threw, and when the returned rowid is 0); an error thrown by that endRun
escapes run(). -/
def run (env : OrchestratorEnv) : RunOutcome × List RunEvent :=
  match env.startRun with
  | .error m => (.failed m, [])
  | .ok runId =>
    match runInner env runId with
    | (.ok (anomalies, results), ev) =>
        (.completed runId env.duration anomalies results,
         RunEvent.startRun runId :: ev)
    | (.error m, ev) =>
        if runId ≠ 0 then
          match env.endRun runId "failed" env.duration with
          | .ok _ => (.failed m,
              RunEvent.startRun runId :: ev ++ [RunEvent.endRun runId "failed" env.duration])
          | .error m2 => (.threw m2, RunEvent.startRun runId :: ev)
        else (.failed m, RunEvent.startRun runId :: ev)

/-! ## Spec-side auxiliary definitions -/

/-- The records of one class inside a limit data set. -/
def classRecords (data : List LimitUsageRecord) (c : String) : List LimitUsageRecord :=
  data.filter (fun d => decide (d.className = c))

/-- The per-class average of the heap size used values: the fourth-resource
average the claim asserts the analysis computes. -/
def perClassHeapAverage (data : List LimitUsageRecord) (c : String) : ℚ :=
  (((classRecords data c).map (fun d => d.heapSizeUsed)).sum : ℚ) /
    ((classRecords data c).length : ℚ)

/-! ## Concrete sample inputs used by witnesses and counterexamples -/

def sampleConfig : Config :=
  { monitoring := { enabled := { debugLogs := true, governorLimits := true, codeQuality := true } }
    thresholds :=
      { errorRate := { absoluteCount := 10 }
        governorLimits := { soqlQueries := 70, dmlStatements := 70, cpuTime := 70, heapSize := 70 }
        codeQuality := { cyclomaticComplexity := 10, classLength := 300, minTestCoverage := 75 } } }

def sampleError : ErrorRecord :=
  { timestamp := "2024-01-01T00:00:00Z"
    logId := "07L000000000001"
    errorType := "Failed"
    errorMessage := "ApexTrigger"
    className := "OrderTrigger"
    methodName := ""
    lineNumber := none }

/-- A record whose maximum resource usage is 89.96 percent (cpu 8996 of
10000), strictly below 90, yet rounding to one decimal yields 90.0. -/
def cexRecord : LimitUsageRecord :=
  { timestamp := "2024-01-01T00:00:00Z"
    className := "BillingJob"
    methodName := "execute"
    soqlQueriesUsed := 0, soqlQueriesLimit := 100
    dmlStatementsUsed := 0, dmlStatementsLimit := 150
    cpuTimeUsed := 8996, cpuTimeLimit := 10000
    heapSizeUsed := 0, heapSizeLimit := 6000000 }

/-- Heap-average counterexample pair: identical except for heapSizeUsed. -/
def heapRecordA : LimitUsageRecord :=
  { timestamp := "2024-01-01T00:00:00Z"
    className := "InvoiceService"
    methodName := "run"
    soqlQueriesUsed := 10, soqlQueriesLimit := 100
    dmlStatementsUsed := 10, dmlStatementsLimit := 150
    cpuTimeUsed := 100, cpuTimeLimit := 10000
    heapSizeUsed := 1000, heapSizeLimit := 6000000 }

def heapRecordB : LimitUsageRecord :=
  { heapRecordA with heapSizeUsed := 2000 }

def sampleResults : MonitoringResults :=
  { debugLogs := some { errors := [sampleError], summary := analyzeErrors [sampleError] }
    governorLimits := some
      { limitData := [heapRecordA]
        analysis := analyzeLimits sampleConfig.thresholds.governorLimits [heapRecordA] }
    codeQuality := some { classCount := 1, issues := [] } }

/-- A baseline orchestrator environment in which every collaborator
succeeds. -/
def baseEnv : OrchestratorEnv :=
  { config := sampleConfig
    startRun := .ok 1
    authState := some .mk
    debugLogMonitor := fun _ => .ok { errors := [], summary := analyzeErrors [] }
    governorLimitMonitor := fun _ => .ok
      { limitData := []
        analysis := analyzeLimits sampleConfig.thresholds.governorLimits [] }
    codeQualityMonitor := fun _ => .ok { classCount := 0, issues := [] }
    insertDebugLogErrors := fun _ _ => .ok ()
    insertGovernorLimits := fun _ _ => .ok ()
    insertAnomalies := fun _ _ => .ok ()
    endRun := fun _ _ _ => .ok ()
    duration := 42 }

/-- Environment for the monitor-failure scenario: the debug-log monitor
succeeds with one error record, then the governor-limit monitor throws past
its query-level catch. -/
def envMonitorThrow : OrchestratorEnv :=
  { baseEnv with
    debugLogMonitor := fun _ => .ok { errors := [sampleError], summary := analyzeErrors [sampleError] }
    governorLimitMonitor := fun _ => .error "Cannot read properties of undefined" }

/-- Environment in which authentication never succeeded. -/
def envAuthFailed : OrchestratorEnv :=
  { baseEnv with authState := none }

/-- Environment in which authentication never succeeded and the database
endRun update also throws. -/
def envEndRunThrows : OrchestratorEnv :=
  { baseEnv with
    authState := none
    endRun := fun _ _ _ => .error "database is locked" }

/-! # Theorems -/

/-- Claim C9: calculateComplexity returns 0 whenever the symbol table is
absent, has no methods field, or has an empty methods list — for every
random oracle, hence deterministically. -/
theorem calculateComplexity_degenerate_zero (rand : Nat → Nat) :
    calculateComplexity rand none = 0 ∧
    calculateComplexity rand (some { methods := none }) = 0 ∧
    calculateComplexity rand (some { methods := some [] }) = 0 :=
  ⟨rfl, rfl, rfl⟩

/-- Claim C3: retry with maxRetries 3 and delay 1000 on an operation that
fails on every attempt invokes the operation exactly 3 times, sleeps
1000 ms then 2000 ms between attempts, and fails with the error of the
third (last) attempt preserved verbatim. -/
theorem retry_always_fails_trace {α : Type} (fn : Nat → Except String α)
    (msgs : Nat → String) (h : ∀ k, fn k = .error (msgs k)) :
    retry fn 3 1000 = ⟨3, [1000, 2000], .error (some (msgs 3))⟩ := by
  simp [retry, retryLoop, h]

/-- Witness for C3 at a concrete always-failing operation. -/
theorem retry_always_fails_trace_witness :
    retry (fun k => (Except.error (toString k ++ " boom") : Except String Nat)) 3 1000 =
      ⟨3, [1000, 2000], .error (some (toString 3 ++ " boom"))⟩ :=
  retry_always_fails_trace _ (fun k => toString k ++ " boom") (fun _ => rfl)

/-- Claim C7: AnomalyDetector.detect is deterministic — identical inputs
and identical threshold configuration produce identical anomaly lists. -/
theorem detect_deterministic (c₁ c₂ : Config) (r₁ r₂ : MonitoringResults)
    (hc : c₁ = c₂) (hr : r₁ = r₂) : detect c₁ r₁ = detect c₂ r₂ := by
  subst hc; subst hr; rfl

/-- Witness for C7 at a concrete configuration and results object. -/
theorem detect_deterministic_witness :
    detect sampleConfig sampleResults = detect sampleConfig sampleResults :=
  detect_deterministic sampleConfig sampleConfig sampleResults sampleResults rfl rfl

/-- Claim C5: the HIGH_ERROR_RATE anomaly is emitted, with severity HIGH,
exactly when the total error count of the snapshot reaches
thresholds.errorRate.absoluteCount — an exactly-equal count fires and a
smaller count produces no HIGH_ERROR_RATE anomaly. -/
theorem detectErrorAnomalies_highErrorRate (config : Config) (errors : List ErrorRecord) :
    (detectErrorAnomalies config
        { errors := errors, summary := analyzeErrors errors }).filter
      (fun a => a.type == "HIGH_ERROR_RATE") =
    (if config.thresholds.errorRate.absoluteCount ≤ (analyzeErrors errors).totalErrors then
      [{ type := "HIGH_ERROR_RATE"
         severity := "HIGH"
         description := toString errors.length ++ " errors detected in the last monitoring period"
         details := .errorRate errors.length config.thresholds.errorRate.absoluteCount
           (analyzeErrors errors).errorTypes }]
    else []) := by
  by_cases h1 : config.thresholds.errorRate.absoluteCount ≤ errors.length <;>
    by_cases h2 : 5 < (analyzeErrors errors).uniqueErrorTypes <;>
      simp [detectErrorAnomalies, analyzeErrors, h1, h2, List.filter]

/-! ### Histogram lemmas for the error summary -/

theorem sumCounts_incr (m : List (String × Nat)) (k : String) :
    sumCounts (incr m k) = sumCounts m + 1 := by
  induction m with
  | nil => simp [incr, sumCounts]
  | cons kv rest ih =>
    rcases kv with ⟨k', v⟩
    by_cases h : k' = k <;> simp [incr, h, sumCounts] at * <;> omega

theorem sumCounts_foldl_incr (l : List String) (m : List (String × Nat)) :
    sumCounts (l.foldl incr m) = sumCounts m + l.length := by
  induction l generalizing m with
  | nil => simp
  | cons x xs ih => simp [List.foldl_cons, ih, sumCounts_incr]; omega

theorem keysOf_nil : keysOf ([] : List (String × Nat)) = [] := rfl

theorem keysOf_cons (kv : String × Nat) (m : List (String × Nat)) :
    keysOf (kv :: m) = kv.1 :: keysOf m := rfl

theorem keysOf_incr (m : List (String × Nat)) (k : String) :
    keysOf (incr m k) = if k ∈ keysOf m then keysOf m else keysOf m ++ [k] := by
  induction m with
  | nil => simp [incr, keysOf]
  | cons kv rest ih =>
    rcases kv with ⟨k', v⟩
    by_cases h : k' = k
    · subst h; simp [incr, keysOf]
    · have h' : k ≠ k' := fun hh => h hh.symm
      simp only [incr]
      rw [if_neg h]
      simp only [keysOf_cons, ih, List.mem_cons]
      by_cases h2 : k ∈ keysOf rest <;> simp [h2, h']

theorem mem_keysOf_incr (m : List (String × Nat)) (y x : String) :
    x ∈ keysOf (incr m y) ↔ x ∈ keysOf m ∨ x = y := by
  rw [keysOf_incr]
  split
  · next hy =>
    constructor
    · exact fun h => Or.inl h
    · rintro (h | rfl)
      · exact h
      · exact hy
  · simp

theorem keysOf_foldl_incr_nodup (l : List String) (m : List (String × Nat))
    (hm : (keysOf m).Nodup) : (keysOf (l.foldl incr m)).Nodup := by
  induction l generalizing m with
  | nil => simpa
  | cons x xs ih =>
    apply ih
    rw [keysOf_incr]
    split
    · exact hm
    · next h => simp [List.nodup_append, hm, h]

theorem mem_keysOf_foldl_incr (l : List String) (m : List (String × Nat)) (x : String) :
    x ∈ keysOf (l.foldl incr m) ↔ x ∈ keysOf m ∨ x ∈ l := by
  induction l generalizing m with
  | nil => simp
  | cons y ys ih =>
    simp only [List.foldl_cons, ih, mem_keysOf_incr, List.mem_cons]
    tauto

theorem analyzeErrors_uniqueErrorTypes (errors : List ErrorRecord) :
    (analyzeErrors errors).uniqueErrorTypes =
      (errors.map (fun e => e.errorType)).toFinset.card := by
  have hfold : errors.foldl (fun m e => incr m e.errorType) [] =
      (errors.map (fun e => e.errorType)).foldl incr [] := by
    rw [List.foldl_map]
  show (keysOf (errors.foldl (fun m e => incr m e.errorType) [])).length = _
  rw [hfold]
  set l := errors.map (fun e => e.errorType) with hl
  have hnd : (keysOf (l.foldl incr [])).Nodup :=
    keysOf_foldl_incr_nodup l [] (by simp [keysOf])
  have hmem : ∀ x, x ∈ keysOf (l.foldl incr []) ↔ x ∈ l := by
    intro x; rw [mem_keysOf_foldl_incr]; simp [keysOf]
  have hfs : (keysOf (l.foldl incr [])).toFinset = l.toFinset := by
    ext x; simp [List.mem_toFinset, hmem]
  calc (keysOf (l.foldl incr [])).length
      = (keysOf (l.foldl incr [])).toFinset.card := (List.toFinset_card_of_nodup hnd).symm
    _ = l.toFinset.card := by rw [hfs]

/-- Claim C10: the summary produced by analyzeErrors has totalErrors equal
to the input length, uniqueErrorTypes equal to the number of distinct
errorType values, and an errorType histogram whose counts sum to
totalErrors. -/
theorem analyzeErrors_summary_invariants (errors : List ErrorRecord) :
    (analyzeErrors errors).totalErrors = errors.length ∧
    (analyzeErrors errors).uniqueErrorTypes =
      (errors.map (fun e => e.errorType)).toFinset.card ∧
    sumCounts (analyzeErrors errors).errorTypes = errors.length := by
  refine ⟨rfl, analyzeErrors_uniqueErrorTypes errors, ?_⟩
  show sumCounts (errors.foldl (fun m e => incr m e.errorType) []) = errors.length
  have hfold : errors.foldl (fun m e => incr m e.errorType) [] =
      (errors.map (fun e => e.errorType)).foldl incr [] := by
    rw [List.foldl_map]
  rw [hfold, sumCounts_foldl_incr]
  simp [sumCounts]

/-! ### Governor-limit analysis and detection (C1) -/

theorem analyzeLimits_fold_fst (t : GovernorLimitThresholds)
    (l : List LimitUsageRecord) (hu : List HighUsageEntry)
    (bc : List (String × ByClassAccum)) :
    (l.foldl (fun acc d =>
      ((if t.soqlQueries ≤ maxPercentUsed d then acc.1 ++ [mkHighUsage d] else acc.1),
       stepByClass acc.2 d)) (hu, bc)).1 =
    hu ++ (l.filter (fun d => decide (t.soqlQueries ≤ maxPercentUsed d))).map mkHighUsage := by
  induction l generalizing hu bc with
  | nil => simp
  | cons d rest ih =>
    by_cases h : t.soqlQueries ≤ maxPercentUsed d <;>
      simp [List.foldl_cons, List.filter_cons, h, ih]

theorem analyzeLimits_highUsage (t : GovernorLimitThresholds)
    (data : List LimitUsageRecord) :
    (analyzeLimits t data).highUsage =
      (data.filter (fun d => decide (t.soqlQueries ≤ maxPercentUsed d))).map mkHighUsage := by
  simpa [analyzeLimits] using analyzeLimits_fold_fst t data [] []

/-- Claim C1 (amended): over any limit data set, the detector pipeline
emits exactly one HIGH_GOVERNOR_LIMIT_USAGE anomaly (the spec names the
type HIGH_LIMIT_USAGE) per record whose maxPercentUsed is at least
thresholds.governorLimits.soqlQueries, in input order, and none for the
records below the threshold; severity is determined by maxPercentUsed
rounded to one decimal place (the stored toFixed(1) string): CRITICAL when
the rounded value is at least 90, HIGH when it is in [80, 90), MEDIUM
otherwise. -/
theorem detectLimitAnomalies_per_record (t : GovernorLimitThresholds)
    (data : List LimitUsageRecord) :
    detectLimitAnomalies { limitData := data, analysis := analyzeLimits t data } =
    (data.filter (fun d => decide (t.soqlQueries ≤ maxPercentUsed d))).map (fun d =>
      { type := "HIGH_GOVERNOR_LIMIT_USAGE"
        severity :=
          if (90 : ℚ) ≤ toFixed1 (maxPercentUsed d) then "CRITICAL"
          else if (80 : ℚ) ≤ toFixed1 (maxPercentUsed d) then "HIGH"
          else "MEDIUM"
        description := d.className ++ " approaching governor limits (" ++
          toString (toFixed1 (maxPercentUsed d)) ++ "% usage)"
        details := .governorLimit d.className d.methodName
          (toFixed1 (soqlPercent d)) (toFixed1 (dmlPercent d))
          (toFixed1 (cpuPercent d)) (toFixed1 (heapPercent d))
          (toFixed1 (maxPercentUsed d)) }) := by
  have hcount : (analyzeLimits t data).highUsageCount =
      (analyzeLimits t data).highUsage.length := rfl
  simp only [detectLimitAnomalies, hcount, analyzeLimits_highUsage]
  rcases hfil : data.filter (fun d => decide (t.soqlQueries ≤ maxPercentUsed d)) with _ | ⟨x, xs⟩
  · simp
  · simp [List.map_map, mkHighUsage, Function.comp]

/-- Counterexample to claim C1 as stated: a record with
maxPercentUsed = 89.96, inside [80, 90) where the claim mandates severity
HIGH, receives severity CRITICAL because the source compares the
toFixed(1)-rounded value 90.0. -/
theorem detectLimit_severity_rounding_cex :
    (80 : ℚ) ≤ maxPercentUsed cexRecord ∧ maxPercentUsed cexRecord < 90 ∧
    sampleConfig.thresholds.governorLimits.soqlQueries ≤ maxPercentUsed cexRecord ∧
    (detectLimitAnomalies
        { limitData := [cexRecord]
          analysis := analyzeLimits sampleConfig.thresholds.governorLimits [cexRecord] }).map
      (fun a => a.severity) = ["CRITICAL"] := by
  have hmax : maxPercentUsed cexRecord = 2249 / 25 := by
    simp [maxPercentUsed, soqlPercent, dmlPercent, cpuPercent, heapPercent, pct,
      cexRecord, max_def]
    norm_num
  have hfix : toFixed1 ((2249 : ℚ) / 25) = 90 := by
    rw [toFixed1, round_eq]; norm_num
  have hcond : sampleConfig.thresholds.governorLimits.soqlQueries ≤ maxPercentUsed cexRecord := by
    rw [hmax]; norm_num [sampleConfig]
  refine ⟨by rw [hmax]; norm_num, by rw [hmax]; norm_num, hcond, ?_⟩
  simp only [detectLimitAnomalies, analyzeLimits, List.foldl_cons, List.foldl_nil]
  have hcond2 : sampleConfig.thresholds.governorLimits.soqlQueries ≤ (2249 : ℚ) / 25 := by
    norm_num [sampleConfig]
  simp [hcond2, mkHighUsage, hmax, hfix]

/-! ### Per-class aggregation lemmas (C6) -/

theorem alookup_stepByClass (acc : List (String × ByClassAccum))
    (d : LimitUsageRecord) (key : String) :
    alookup (stepByClass acc d) key =
      if d.className = key then some (addRec ((alookup acc key).getD ⟨0, 0, 0, 0⟩) d)
      else alookup acc key := by
  induction acc with
  | nil => by_cases h : d.className = key <;> simp [stepByClass, alookup, h]
  | cons kv rest ih =>
    rcases kv with ⟨k, e⟩
    by_cases h1 : k = d.className
    · subst h1
      by_cases h2 : d.className = key <;> simp [stepByClass, alookup, h2]
    · by_cases h2 : k = key
      · have h3 : d.className ≠ key := fun hh => h1 (h2.trans hh.symm)
        have h4 : ¬ key = d.className := fun hh => h3 hh.symm
        simp [stepByClass, alookup, h1, h2, h3, h4]
      · simp [stepByClass, alookup, h1, h2, ih]

theorem alookup_foldl_stepByClass (l : List LimitUsageRecord)
    (acc : List (String × ByClassAccum)) (key : String) :
    alookup (l.foldl stepByClass acc) key =
      (l.filter (fun d => decide (d.className = key))).foldl
        (fun o d => some (addRec (o.getD ⟨0, 0, 0, 0⟩) d)) (alookup acc key) := by
  induction l generalizing acc with
  | nil => simp
  | cons d rest ih =>
    by_cases h : d.className = key <;>
      simp [List.foldl_cons, List.filter_cons, h, ih, alookup_stepByClass]

theorem optFold_eq_some (xs : List LimitUsageRecord) (e : ByClassAccum) :
    xs.foldl (fun o d => some (addRec (o.getD ⟨0, 0, 0, 0⟩) d)) (some e) =
      some (xs.foldl addRec e) := by
  induction xs generalizing e with
  | nil => rfl
  | cons x xs ih => simp [List.foldl_cons, ih]

theorem optFold_none_nonempty (x : LimitUsageRecord) (xs : List LimitUsageRecord) :
    (x :: xs).foldl (fun o d => some (addRec (o.getD ⟨0, 0, 0, 0⟩) d)) none =
      some ((x :: xs).foldl addRec ⟨0, 0, 0, 0⟩) := by
  simp [List.foldl_cons, optFold_eq_some]

theorem foldl_addRec_eq (xs : List LimitUsageRecord) (e : ByClassAccum) :
    xs.foldl addRec e =
      ⟨e.count + xs.length,
       e.sumSoql + (xs.map (fun d => d.soqlQueriesUsed)).sum,
       e.sumDml + (xs.map (fun d => d.dmlStatementsUsed)).sum,
       e.sumCpu + (xs.map (fun d => d.cpuTimeUsed)).sum⟩ := by
  induction xs generalizing e with
  | nil => cases e; simp
  | cons x xs ih =>
    cases e
    simp [List.foldl_cons, addRec, ih, ByClassAccum.mk.injEq]
    omega

theorem analyzeLimits_fold_snd (t : GovernorLimitThresholds)
    (l : List LimitUsageRecord) (hu : List HighUsageEntry)
    (bc : List (String × ByClassAccum)) :
    (l.foldl (fun acc d =>
      ((if t.soqlQueries ≤ maxPercentUsed d then acc.1 ++ [mkHighUsage d] else acc.1),
       stepByClass acc.2 d)) (hu, bc)).2 = l.foldl stepByClass bc := by
  induction l generalizing hu bc with
  | nil => rfl
  | cons d rest ih => simp [List.foldl_cons, ih]

theorem alookup_map_finalize (m : List (String × ByClassAccum)) (key : String) :
    alookup (m.map (fun ke => (ke.1, finalizeClass ke.2))) key =
      (alookup m key).map finalizeClass := by
  induction m with
  | nil => rfl
  | cons kv rest ih => by_cases h : kv.1 = key <;> simp [alookup, h, ih]

/-- Claim C6 (amended): for every class appearing in the input records,
the byClass analysis holds the record count and the per-class averages of
the soql queries used, DML statements used and CPU time used values, each
formatted with toFixed(1); no heap size average is computed. -/
theorem analyzeLimits_byClass_averages (t : GovernorLimitThresholds)
    (data : List LimitUsageRecord) (c : String)
    (h : classRecords data c ≠ []) :
    alookup (analyzeLimits t data).byClass c =
      some { count := (classRecords data c).length
             avgSoql := toFixed1 ((((classRecords data c).map (fun d => d.soqlQueriesUsed)).sum : ℚ) /
               ((classRecords data c).length : ℚ))
             avgDml := toFixed1 ((((classRecords data c).map (fun d => d.dmlStatementsUsed)).sum : ℚ) /
               ((classRecords data c).length : ℚ))
             avgCpu := toFixed1 ((((classRecords data c).map (fun d => d.cpuTimeUsed)).sum : ℚ) /
               ((classRecords data c).length : ℚ)) } := by
  have hsnd : (analyzeLimits t data).byClass =
      (data.foldl stepByClass []).map (fun ke => (ke.1, finalizeClass ke.2)) := by
    simp [analyzeLimits, analyzeLimits_fold_snd]
  have hkey : alookup (data.foldl stepByClass []) c =
      (classRecords data c).foldl (fun o d => some (addRec (o.getD ⟨0, 0, 0, 0⟩) d)) none := by
    rw [alookup_foldl_stepByClass]; rfl
  rw [hsnd, alookup_map_finalize, hkey]
  rcases hcr : classRecords data c with _ | ⟨x, xs⟩
  · exact absurd hcr h
  rw [optFold_none_nonempty, foldl_addRec_eq]
  simp [finalizeClass, Function.comp_def]

/-- Witness for C6 (amended) at two records of the same class. -/
theorem analyzeLimits_byClass_averages_witness :
    classRecords [heapRecordA, heapRecordB] "InvoiceService" ≠ [] ∧
    alookup (analyzeLimits sampleConfig.thresholds.governorLimits
        [heapRecordA, heapRecordB]).byClass "InvoiceService" =
      some { count := (classRecords [heapRecordA, heapRecordB] "InvoiceService").length
             avgSoql := toFixed1 ((((classRecords [heapRecordA, heapRecordB] "InvoiceService").map
                 (fun d => d.soqlQueriesUsed)).sum : ℚ) /
               ((classRecords [heapRecordA, heapRecordB] "InvoiceService").length : ℚ))
             avgDml := toFixed1 ((((classRecords [heapRecordA, heapRecordB] "InvoiceService").map
                 (fun d => d.dmlStatementsUsed)).sum : ℚ) /
               ((classRecords [heapRecordA, heapRecordB] "InvoiceService").length : ℚ))
             avgCpu := toFixed1 ((((classRecords [heapRecordA, heapRecordB] "InvoiceService").map
                 (fun d => d.cpuTimeUsed)).sum : ℚ) /
               ((classRecords [heapRecordA, heapRecordB] "InvoiceService").length : ℚ)) } :=
  ⟨by decide, analyzeLimits_byClass_averages sampleConfig.thresholds.governorLimits
    [heapRecordA, heapRecordB] "InvoiceService" (by decide)⟩

/-- Counterexample to claim C6 as stated: two singleton data sets that
differ only in heapSizeUsed produce identical analysis output, although
the per-class heap averages differ — so the analysis does not compute a
heap size average. -/
theorem analyzeLimits_no_heap_average :
    analyzeLimits sampleConfig.thresholds.governorLimits [heapRecordA] =
      analyzeLimits sampleConfig.thresholds.governorLimits [heapRecordB] ∧
    perClassHeapAverage [heapRecordA] "InvoiceService" ≠
      perClassHeapAverage [heapRecordB] "InvoiceService" := by
  constructor
  · have hA : ¬ (sampleConfig.thresholds.governorLimits.soqlQueries ≤ maxPercentUsed heapRecordA) := by
      simp [maxPercentUsed, soqlPercent, dmlPercent, cpuPercent, heapPercent, pct,
        heapRecordA, max_def, sampleConfig]
      norm_num
    have hB : ¬ (sampleConfig.thresholds.governorLimits.soqlQueries ≤ maxPercentUsed heapRecordB) := by
      simp [maxPercentUsed, soqlPercent, dmlPercent, cpuPercent, heapPercent, pct,
        heapRecordB, heapRecordA, max_def, sampleConfig]
      norm_num
    simp only [analyzeLimits, List.foldl_cons, List.foldl_nil]
    rw [if_neg hA, if_neg hB]
    rfl
  · simp [perClassHeapAverage, classRecords, heapRecordA, heapRecordB]

/-! ### Orchestrator run theorems -/

/-- Claim C4: a run whose connection-acquisition step fails (authenticate
never succeeded, so getConnection throws) invokes no monitor, persists no
error, limit or anomaly records, ends with terminal status failed carrying
the recorded duration, and surfaces the triggering error message to the
caller. -/
theorem run_authFailure (env : OrchestratorEnv) (id : Nat)
    (h1 : env.startRun = .ok id) (h0 : id ≠ 0)
    (h2 : env.authState = none)
    (h3 : env.endRun id "failed" env.duration = .ok ()) :
    run env = (.failed notAuthenticatedMessage,
      [RunEvent.startRun id, RunEvent.endRun id "failed" env.duration]) := by
  simp [run, runInner, getConnection, h1, h2, h0, h3]

/-- Witness for C4 at a concrete environment with no authenticated
connection. -/
theorem run_authFailure_witness :
    run envAuthFailed = (.failed notAuthenticatedMessage,
      [RunEvent.startRun 1, RunEvent.endRun 1 "failed" envAuthFailed.duration]) :=
  run_authFailure envAuthFailed 1 rfl (by decide) rfl rfl

/-- Claim C2 (amended): a run in which one monitor raises internally past
its query-level catch ends with status failed and the failure result, not
completed: records persisted by monitors that finished earlier remain
persisted, later monitors are not invoked, and no anomalies are detected
or persisted; the failure-path endRun records the terminal failed status. -/
theorem run_monitorThrow_failsRun (env : OrchestratorEnv) (id : Nat) (conn : Connection)
    (snap : DebugLogResults) (m : String)
    (h1 : env.startRun = .ok id) (h0 : id ≠ 0)
    (h2 : env.authState = some conn)
    (hd : env.config.monitoring.enabled.debugLogs = true)
    (hg : env.config.monitoring.enabled.governorLimits = true)
    (h3 : env.debugLogMonitor conn = .ok snap)
    (hne : 0 < snap.errors.length)
    (h4 : env.insertDebugLogErrors id snap.errors = .ok ())
    (h5 : env.governorLimitMonitor conn = .error m)
    (h6 : env.endRun id "failed" env.duration = .ok ()) :
    run env = (.failed m,
      [RunEvent.startRun id, RunEvent.monitorCalled "debugLogs",
       RunEvent.insertDebugLogErrors id snap.errors,
       RunEvent.monitorCalled "governorLimits",
       RunEvent.endRun id "failed" env.duration]) := by
  simp [run, runInner, runDebugLogStep, runGovernorStep, getConnection,
    h1, h0, h2, hd, hg, h3, hne, h4, h5, h6]

/-- Witness for C2 (amended) at a concrete environment. -/
theorem run_monitorThrow_failsRun_witness :
    run envMonitorThrow = (.failed "Cannot read properties of undefined",
      [RunEvent.startRun 1, RunEvent.monitorCalled "debugLogs",
       RunEvent.insertDebugLogErrors 1 [sampleError],
       RunEvent.monitorCalled "governorLimits",
       RunEvent.endRun 1 "failed" envMonitorThrow.duration]) :=
  run_monitorThrow_failsRun envMonitorThrow 1 .mk
    { errors := [sampleError], summary := analyzeErrors [sampleError] }
    "Cannot read properties of undefined"
    rfl (by decide) rfl rfl rfl rfl (by decide) rfl rfl rfl

/-- Counterexample to claim C2 as stated: with the debug-log monitor
succeeding (one record persisted) and the governor-limit monitor raising
internally past its query-level catch, the run does not end completed: it
ends failed and persists no anomalies. -/
theorem run_monitorThrow_cex :
    ((run envMonitorThrow).1).isCompleted = false ∧
    (run envMonitorThrow).1 = .failed "Cannot read properties of undefined" ∧
    ((run envMonitorThrow).2).all (fun e => ! e.isInsertAnomalies) = true :=
  ⟨rfl, rfl, rfl⟩

/-- Claim C8 (amended): whenever the failure-path endRun call succeeds (or
is skipped), run hands a result object back to its caller — the success
shape or the failure shape carrying only the error message — and never
throws; only a throwing failure-path endRun can escape. -/
theorem run_returns_result (env : OrchestratorEnv)
    (h : ∀ i d, env.endRun i "failed" d = .ok ()) :
    ((run env).1).isThrew = false ∧
    (((run env).1).isCompleted = true ∨ ∃ m, (run env).1 = .failed m) := by
  rcases hs : env.startRun with m | runId
  · simp [run, hs, RunOutcome.isThrew, RunOutcome.isCompleted]
  · rcases hInner : runInner env runId with ⟨res, ev⟩
    rcases res with m | p
    · by_cases h0 : runId = 0
      · subst h0
        simp [run, hs, hInner, RunOutcome.isThrew, RunOutcome.isCompleted]
      · simp [run, hs, hInner, h0, h runId env.duration,
          RunOutcome.isThrew, RunOutcome.isCompleted]
    · rcases p with ⟨anomalies, results⟩
      simp [run, hs, hInner, RunOutcome.isThrew, RunOutcome.isCompleted]

/-- Witness for C8 (amended) at the all-succeeding environment. -/
theorem run_returns_result_witness :
    ((run baseEnv).1).isThrew = false ∧
    (((run baseEnv).1).isCompleted = true ∨ ∃ m, (run baseEnv).1 = .failed m) :=
  run_returns_result baseEnv (fun _ _ => rfl)

/-- Counterexample to claim C8 as stated: when the catch-path endRun call
itself throws, the exception escapes run rather than a result object being
returned. -/
theorem run_throws_cex :
    run envEndRunThrows = (.threw "database is locked", [RunEvent.startRun 1]) ∧
    ((run envEndRunThrows).1).isThrew = true :=
  ⟨rfl, rfl⟩

end ApexMon
